import Mathlib

/-!
Shallow embedding of the wallet-session / network-reconciliation /
token-registration core of `src/App.js` (the version whose line numbers the
claims cite: `getErrorMessage` at 440-488, `connectWallet` at 684-717,
`addTokenToMetaMask` at 749-862, `switchToBSC` at 905-990,
`ensureCorrectNetwork` at 992-1019, the `accountsChanged` handler at
1051-1076, `disconnectWallet` at 1079-1085, `retryOperation` at 1088-1120).

The injected wallet provider is modelled as an oracle `Oracle : Nat → RpcResult`
giving the response of the k-th provider RPC call of a run.  Every handler is a
function from the oracle, the index of its first call, and the React component
state to an `Out α`: the returned value, the new state, the next call index, and
the trace of (request, response) pairs it issued, in order.  JavaScript
`throw`/`catch` is rendered as explicit control flow on `RpcResult.err`;
synthesized `new Error(msg)` values carry `code = none`.
-/

namespace CTI

/-- A duck-typed provider error: the handlers only ever inspect `.code` and
`.message` (both may be absent). -/
structure ErrObj where
  code : Option Int
  message : Option String
  deriving DecidableEq, Repr

/-- The JSON-ish values a provider RPC call can resolve with: `null`/undefined,
a string (chain ids), a boolean (`wallet_watchAsset`), an address list
(`eth_accounts` / `eth_requestAccounts`), or a numeric balance in wei. -/
inductive JsValue where
  | null
  | str (s : String)
  | boolean (b : Bool)
  | addrList (xs : List String)
  | wei (n : Nat)
  deriving DecidableEq, Repr

/-- JavaScript truthiness of a resolved value (`if (wasAdded)` etc.). -/
def JsValue.truthy : JsValue → Bool
  | .null => false
  | .str s => s != ""
  | .boolean b => b
  | .addrList _ => true
  | .wei n => n != 0

/-- A provider RPC call either resolves with a value or rejects with an error. -/
inductive RpcResult where
  | ok (v : JsValue)
  | err (e : ErrObj)
  deriving DecidableEq, Repr

def RpcResult.isOk : RpcResult → Bool
  | .ok _ => true
  | .err _ => false

/-- `r` is a rejection whose error carries code 4902 (chain unknown). -/
def RpcResult.fails4902 : RpcResult → Bool
  | .err e => decide (e.code = some 4902)
  | .ok _ => false

/-- `nativeCurrency` part of the chain configuration (src/App.js 423-427). -/
structure NativeCurrency where
  name : String
  symbol : String
  decimals : Nat
  deriving DecidableEq, Repr

/-- The `wallet_addEthereumChain` payload shape (src/App.js 420-430). -/
structure ChainDescriptor where
  chainId : String
  chainName : String
  nativeCurrency : NativeCurrency
  rpcUrls : List String
  blockExplorerUrls : List String
  deriving DecidableEq, Repr

/-- `BSC_NETWORK` (src/App.js 420-430). -/
def BSC_NETWORK : ChainDescriptor :=
  { chainId := "0x38"
    chainName := "Binance Smart Chain"
    nativeCurrency := { name := "BNB", symbol := "BNB", decimals := 18 }
    rpcUrls := ["https://bsc-dataseed.binance.org/"]
    blockExplorerUrls := ["https://bscscan.com/"] }

/-- `USDT_CONFIG` (src/App.js 405-417); presentation-only fields included. -/
structure TokenConfig where
  address : String
  symbol : String
  decimals : Nat
  name : String
  logo : String
  description : String
  website : String
  explorer : String
  totalSupply : String
  type : String
  network : String
  deriving DecidableEq, Repr

def USDT_CONFIG : TokenConfig :=
  { address := "0x6D39a10d110CEe17F9afBe53383BD5aa308c6fd3"
    symbol := "USDT"
    decimals := 18
    name := "Tether USD"
    logo := "/new-tether-logo.png"
    description := "Tether gives you the joint benefits of open blockchain technology and traditional currency by converting your cash into a stable digital currency equivalent."
    website := "https://tether.to"
    explorer := "https://bscscan.com/token/0x6D39a10d110CEe17F9afBe53383BD5aa308c6fd3"
    totalSupply := "Unlimited"
    type := "BEP-20"
    network := "Binance Smart Chain" }

/-- The `options` object of a `wallet_watchAsset` request (src/App.js 800-809
and 823-833; the degraded Android fallback omits `image`). -/
structure WatchOptions where
  address : String
  symbol : String
  decimals : Nat
  image : Option String
  name : String
  deriving DecidableEq, Repr

/-- The provider RPC requests the core issues. -/
inductive Request where
  | ethChainId
  | ethAccounts
  | ethRequestAccounts
  | ethGetBalance (addr : String)
  | walletSwitchEthereumChain (chainId : String)
  | walletAddEthereumChain (cfg : ChainDescriptor)
  | walletWatchAsset (opts : WatchOptions)
  deriving DecidableEq, Repr

abbrev Oracle := Nat → RpcResult
abbrev CallLog := List (Request × RpcResult)

/-- The React component state of `App` (src/App.js 511-524): the fields the
core reads or writes.  `provider` / `web3` are presence handles (the actual
objects are represented by the oracle). -/
structure AppState where
  account : Option String
  isConnected : Bool
  provider : Option Unit
  web3 : Option Unit
  status : String
  statusType : String
  balance : String
  isLoading : Bool
  logoUrl : String
  currentNetwork : String
  metamaskLogoUrl : String
  retryCount : Nat
  deriving DecidableEq, Repr

/-- Result of running one handler: returned value, new state, index of the next
provider call, and the log of (request, response) pairs issued, in order. -/
structure Out (α : Type) where
  ret : α
  st : AppState
  idx : Nat
  tr : CallLog
  deriving Repr

/-- `true` when the character list `need` is a leading segment of `hay`. -/
def leadsChars : List Char → List Char → Bool
  | [], _ => true
  | _ :: _, [] => false
  | a :: as, b :: bs => (a = b : Bool) && leadsChars as bs

/-- `true` when `need` occurs contiguously somewhere in `hay`. -/
def occursIn (need : List Char) : List Char → Bool
  | [] => leadsChars need []
  | b :: bs => leadsChars need (b :: bs) || occursIn need bs

/-- `String.prototype.includes` (case-sensitive substring test). -/
def strIncludes (s sub : String) : Bool := occursIn sub.toList s.toList

/-- `error.message?.includes(sub)`: `false` when `message` is absent. -/
def msgIncludes (e : ErrObj) (sub : String) : Bool :=
  match e.message with
  | some m => strIncludes m sub
  | none => false

/-- The `ErrorTypes` constants (src/App.js 433-438): the code's whole error
taxonomy has exactly these four values. -/
def ErrorTypes.NETWORK_ERROR : String := "NETWORK_ERROR"
def ErrorTypes.USER_REJECTED : String := "USER_REJECTED"
def ErrorTypes.PROVIDER_ERROR : String := "PROVIDER_ERROR"
def ErrorTypes.UNKNOWN_ERROR : String := "UNKNOWN_ERROR"

/-- The record `getErrorMessage` returns. -/
structure ErrorInfo where
  type : String
  message : String
  userFriendly : String
  deriving DecidableEq, Repr

/-- `getErrorMessage` (src/App.js 440-488): pure classification of a raw
provider error, checked in the source's branch order.  The final branch models
`error.message || defaultText` (an empty string is falsy in JavaScript). -/
def getErrorMessage (e : ErrObj) : ErrorInfo :=
  if e.code = some 4001 then
    { type := ErrorTypes.USER_REJECTED
      message := "User rejected the request. Please try again if you want to proceed."
      userFriendly := "Request was cancelled. You can try again anytime." }
  else if e.code = some (-32601) then
    { type := ErrorTypes.PROVIDER_ERROR
      message := "Method not supported by your wallet."
      userFriendly := "This feature is not supported by your current wallet. Please try a different wallet or update your current one." }
  else if e.code = some 4902 then
    { type := ErrorTypes.NETWORK_ERROR
      message := "Network not found in wallet."
      userFriendly := "Network not found. We will try to add it automatically." }
  else if msgIncludes e "network" then
    { type := ErrorTypes.NETWORK_ERROR
      message := "Network connection error."
      userFriendly := "Network connection issue. Please check your internet connection and try again." }
  else if msgIncludes e "timeout" then
    { type := ErrorTypes.NETWORK_ERROR
      message := "Request timeout."
      userFriendly := "Request timed out. Please try again." }
  else
    { type := ErrorTypes.UNKNOWN_ERROR
      message := match e.message with
                 | some m => if m = "" then "An unexpected error occurred." else m
                 | none => "An unexpected error occurred."
      userFriendly := "Something went wrong. Please try again or refresh the page." }

/-- State change of `catch (addError)` in `switchToBSC` (src/App.js 956-966). -/
def addNetworkFail (ae : ErrObj) (s : AppState) : AppState :=
  { s with status := (getErrorMessage ae).userFriendly, statusType := "error" }

/-- The `catch (switchError)` block of `switchToBSC` (src/App.js 932-978),
entered with the error `e` thrown by the switch-then-verify `try` block.  When
`e.code === 4902` it issues `wallet_addEthereumChain` with the full
`BSC_NETWORK` descriptor and then re-reads `eth_chainId`, returning `true` only
when the re-read equals the target; the synthesized verification error carries
no code.  Any other error reports the classified message and returns `false`. -/
def catchSwitch (orc : Oracle) (n : Nat) (s : AppState) (e : ErrObj) : Out Bool :=
  if e.code = some 4902 then
    let s := { s with status := "Adding Binance Smart Chain to MetaMask...", statusType := "info" }
    match orc n with
    | .err ae =>
        ⟨false, addNetworkFail ae s, n + 1,
         [(.walletAddEthereumChain BSC_NETWORK, .err ae)]⟩
    | .ok v =>
        match orc (n + 1) with
        | .err ae =>
            ⟨false, addNetworkFail ae s, n + 2,
             [(.walletAddEthereumChain BSC_NETWORK, .ok v), (.ethChainId, .err ae)]⟩
        | .ok v2 =>
            if v2 = JsValue.str BSC_NETWORK.chainId then
              ⟨true,
               { s with status := "Binance Smart Chain added and switched successfully!"
                        statusType := "success", currentNetwork := "Binance Smart Chain" },
               n + 2,
               [(.walletAddEthereumChain BSC_NETWORK, .ok v), (.ethChainId, .ok v2)]⟩
            else
              ⟨false, addNetworkFail ⟨none, some "Network addition verification failed"⟩ s, n + 2,
               [(.walletAddEthereumChain BSC_NETWORK, .ok v), (.ethChainId, .ok v2)]⟩
  else
    ⟨false, { s with status := (getErrorMessage e).userFriendly, statusType := "error" }, n, []⟩

/-- `switchToBSC` (src/App.js 905-990): issue `wallet_switchEthereumChain`,
re-read `eth_chainId` and require it equal the target; any rejection thrown in
that `try` block (the switch call, the re-read, or the synthesized
`Network switch verification failed` error, which carries no code) lands in
`catchSwitch`.  The outer `catch (error)` of the source is unreachable (every
branch of the inner handlers returns). -/
def switchToBSC (orc : Oracle) (n : Nat) (s : AppState) : Out Bool :=
  if s.provider = none then
    ⟨false, { s with status := "MetaMask not detected.", statusType := "error" }, n, []⟩
  else
    match orc n with
    | .err e =>
        let o := catchSwitch orc (n + 1) s e
        ⟨o.ret, o.st, o.idx,
         (.walletSwitchEthereumChain BSC_NETWORK.chainId, .err e) :: o.tr⟩
    | .ok v =>
        match orc (n + 1) with
        | .err e2 =>
            let o := catchSwitch orc (n + 2) s e2
            ⟨o.ret, o.st, o.idx,
             (.walletSwitchEthereumChain BSC_NETWORK.chainId, .ok v) ::
               (.ethChainId, .err e2) :: o.tr⟩
        | .ok v2 =>
            if v2 = JsValue.str BSC_NETWORK.chainId then
              ⟨true,
               { s with status := "Successfully switched to Binance Smart Chain!"
                        statusType := "success", currentNetwork := "Binance Smart Chain" },
               n + 2,
               [(.walletSwitchEthereumChain BSC_NETWORK.chainId, .ok v),
                (.ethChainId, .ok v2)]⟩
            else
              let o := catchSwitch orc (n + 2) s ⟨none, some "Network switch verification failed"⟩
              ⟨o.ret, o.st, o.idx,
               (.walletSwitchEthereumChain BSC_NETWORK.chainId, .ok v) ::
                 (.ethChainId, .ok v2) :: o.tr⟩

/-- `ensureCorrectNetwork` (src/App.js 992-1019): no provider means silent
return; otherwise read `eth_chainId` and, when it differs from the target,
delegate to `switchToBSC`; a failed read is swallowed (logged only).  The
source returns no value (`undefined`). -/
def ensureCorrectNetwork (orc : Oracle) (n : Nat) (s : AppState) : Out Unit :=
  if s.provider = none then ⟨(), s, n, []⟩
  else
    match orc n with
    | .err e => ⟨(), s, n + 1, [(.ethChainId, .err e)]⟩
    | .ok v =>
        if v = JsValue.str BSC_NETWORK.chainId then
          ⟨(), { s with currentNetwork := "Binance Smart Chain" }, n + 1,
           [(.ethChainId, .ok v)]⟩
        else
          let s := { s with status := "Switching to Binance Smart Chain automatically..."
                            statusType := "info" }
          let o := switchToBSC orc (n + 1) s
          ⟨(), o.st, o.idx, (.ethChainId, .ok v) :: o.tr⟩

/-- Left-pads the fractional digits of `weiToFixed4` to width 4. -/
def pad4 (n : Nat) : String :=
  let l := (toString n).toList
  String.mk (List.replicate (4 - l.length) '0' ++ l)

/-- `parseFloat(web3.utils.fromWei(wei, 'ether')).toFixed(4)` rendered in exact
integer arithmetic: `wei / 10^18` rounded half-up to 4 fractional digits.
(The floating-point rounding of the source is out of scope; no claim depends
on the digit string.) -/
def weiToFixed4 (w : Nat) : String :=
  let scaled := (w * 10000 + 50000000000000) / 1000000000000000000
  toString (scaled / 10000) ++ "." ++ pad4 (scaled % 10000)

/-- The displayed balance computed from a `getBalance` response. -/
def formatBalance : JsValue → String
  | .wei w => weiToFixed4 w
  | _ => "NaN"

/-- `getBalance` (src/App.js 719-747): silent when `web3` is absent or no
address is given (`!accountAddress` also rejects the empty string); a fetch
failure silently degrades the balance to "0". -/
def getBalance (addr : Option String) (orc : Oracle) (n : Nat) (s : AppState) : Out Unit :=
  if s.web3 = none then ⟨(), s, n, []⟩
  else
    match addr with
    | none => ⟨(), s, n, []⟩
    | some a =>
        if a = "" then ⟨(), s, n, []⟩
        else
          match orc n with
          | .ok v => ⟨(), { s with balance := formatBalance v }, n + 1,
                      [(.ethGetBalance a, .ok v)]⟩
          | .err e => ⟨(), { s with balance := "0" }, n + 1,
                       [(.ethGetBalance a, .err e)]⟩

/-- `connectWallet` (src/App.js 684-717): request accounts; a non-empty result
stores the first address, marks the session connected, runs
`ensureCorrectNetwork`, sets the success status and refreshes the balance; an
empty result does nothing (only the `finally` clears `isLoading`); a rejection
reports the classified message.  A non-array resolution would raise a runtime
`TypeError` at `accounts.length`, modelled as a code-less, message-less error
reaching the same `catch`. -/
def connectWallet (orc : Oracle) (n : Nat) (s : AppState) : Out Unit :=
  if s.provider = none then
    ⟨(), { s with status := "MetaMask not detected. Please install MetaMask.", statusType := "error" },
     n, []⟩
  else
    let s := { s with isLoading := true }
    match orc n with
    | .err e =>
        ⟨(), { s with status := (getErrorMessage e).userFriendly, statusType := "error"
                      isLoading := false },
         n + 1, [(.ethRequestAccounts, .err e)]⟩
    | .ok (JsValue.addrList []) =>
        ⟨(), { s with isLoading := false }, n + 1,
         [(.ethRequestAccounts, .ok (.addrList []))]⟩
    | .ok (JsValue.addrList (a :: rest)) =>
        let s1 := { s with account := some a, isConnected := true }
        let o1 := ensureCorrectNetwork orc (n + 1) s1
        let s2 := { o1.st with status := "Wallet connected successfully!", statusType := "success" }
        let o2 := getBalance (some a) orc o1.idx s2
        ⟨(), { o2.st with isLoading := false }, o2.idx,
         (.ethRequestAccounts, .ok (.addrList (a :: rest))) :: o1.tr ++ o2.tr⟩
    | .ok v =>
        ⟨(), { s with status := (getErrorMessage ⟨none, none⟩).userFriendly, statusType := "error"
                      isLoading := false },
         n + 1, [(.ethRequestAccounts, .ok v)]⟩

/-- `checkConnection` (src/App.js 645-682): detect the injected provider
(`detected` models the `detectEthereumProvider()` outcome), store the provider
and web3 handles, read `eth_accounts`, and when non-empty adopt the first
address, reconcile the network and refresh the balance.  Listener registration
(`setupChainChangeListener`) mutates no session state and is not logged. -/
def checkConnection (detected : Bool) (orc : Oracle) (n : Nat) (s : AppState) : Out Unit :=
  if !detected then
    ⟨(), { s with status := "MetaMask not detected. Please install MetaMask to use this app."
                  statusType := "error" },
     n, []⟩
  else
    let s := { s with provider := some (), web3 := some () }
    match orc n with
    | .err e =>
        ⟨(), { s with status := (getErrorMessage e).userFriendly, statusType := "error" },
         n + 1, [(.ethAccounts, .err e)]⟩
    | .ok (JsValue.addrList []) =>
        ⟨(), s, n + 1, [(.ethAccounts, .ok (.addrList []))]⟩
    | .ok (JsValue.addrList (a :: rest)) =>
        let s1 := { s with account := some a, isConnected := true }
        let o1 := ensureCorrectNetwork orc (n + 1) s1
        let o2 := getBalance (some a) orc o1.idx o1.st
        ⟨(), o2.st, o2.idx, (.ethAccounts, .ok (.addrList (a :: rest))) :: o1.tr ++ o2.tr⟩
    | .ok v =>
        ⟨(), { s with status := (getErrorMessage ⟨none, none⟩).userFriendly, statusType := "error" },
         n + 1, [(.ethAccounts, .ok v)]⟩

/-- The full `wallet_watchAsset` options of the first attempt
(src/App.js 798-810), with the image URI derived from the page origin. -/
def fullWatchOptions (origin : String) : WatchOptions :=
  { address := USDT_CONFIG.address
    symbol := USDT_CONFIG.symbol
    decimals := USDT_CONFIG.decimals
    image := some (origin ++ "/new-tether-logo.png")
    name := USDT_CONFIG.name }

/-- The degraded fallback options (src/App.js 822-834): identical except the
`image` field is omitted for Android compatibility. -/
def degradedWatchOptions : WatchOptions :=
  { address := USDT_CONFIG.address
    symbol := USDT_CONFIG.symbol
    decimals := USDT_CONFIG.decimals
    image := none
    name := USDT_CONFIG.name }

/-- State change of the outer `catch (error)` + `finally` of
`addTokenToMetaMask` (src/App.js 849-861). -/
def addTokenFail (e : ErrObj) (s : AppState) : AppState :=
  { s with status := (getErrorMessage e).userFriendly, statusType := "error", isLoading := false }

/-- Fallthrough when a watch request resolves falsy (src/App.js 847-848),
followed by the `finally`. -/
def tokenNotAdded (s : AppState) : AppState :=
  { s with status := "Token was not added. Please try again.", statusType := "error"
           isLoading := false }

/-- The registration phase of `addTokenToMetaMask` (src/App.js 796-848): the
nested try blocks submitting `wallet_watchAsset`.  A truthy first result
succeeds; ANY rejection of the first request (the `catch (standardError)`
branch does not inspect the error) triggers exactly one degraded retry without
the image field; a rejection of the retry is re-thrown into the outer catch. -/
def watchPhase (origin : String) (orc : Oracle) (n : Nat) (s : AppState) : Out Unit :=
  match orc n with
  | .ok v =>
      if v.truthy then
        ⟨(), { s with status := "USDT token successfully added to MetaMask on Binance Smart Chain! The logo should appear in your wallet."
                      statusType := "success", isLoading := false },
         n + 1, [(.walletWatchAsset (fullWatchOptions origin), .ok v)]⟩
      else
        ⟨(), tokenNotAdded s, n + 1, [(.walletWatchAsset (fullWatchOptions origin), .ok v)]⟩
  | .err e1 =>
      match orc (n + 1) with
      | .ok v2 =>
          if v2.truthy then
            ⟨(), { s with status := "USDT token added to MetaMask on Binance Smart Chain! (Logo may not appear on Android)"
                          statusType := "success", isLoading := false },
             n + 2,
             [(.walletWatchAsset (fullWatchOptions origin), .err e1),
              (.walletWatchAsset degradedWatchOptions, .ok v2)]⟩
          else
            ⟨(), tokenNotAdded s, n + 2,
             [(.walletWatchAsset (fullWatchOptions origin), .err e1),
              (.walletWatchAsset degradedWatchOptions, .ok v2)]⟩
      | .err e2 =>
          ⟨(), addTokenFail e2 s, n + 2,
           [(.walletWatchAsset (fullWatchOptions origin), .err e1),
            (.walletWatchAsset degradedWatchOptions, .err e2)]⟩

/-- The `Error` thrown when `switchToBSC` returns `false`
(src/App.js 772-774); carries no code. -/
def switchFailErr : ErrObj :=
  ⟨none, some "Failed to switch to Binance Smart Chain. Please switch manually and try again."⟩

/-- `addTokenToMetaMask` (src/App.js 749-862): guard on provider+connection,
read `eth_chainId`; off-target chain runs `switchToBSC` and aborts (throwing
`switchFailErr` into the outer catch) unless the verified switch succeeded;
then the watch phase runs. -/
def addTokenToMetaMask (origin : String) (orc : Oracle) (n : Nat) (s : AppState) : Out Unit :=
  if s.provider = none ∨ s.isConnected = false then
    ⟨(), { s with status := "Please connect your wallet first.", statusType := "error" }, n, []⟩
  else
    let s := { s with isLoading := true
                      status := "Ensuring you are on Binance Smart Chain...", statusType := "info" }
    match orc n with
    | .err e => ⟨(), addTokenFail e s, n + 1, [(.ethChainId, .err e)]⟩
    | .ok v =>
        if v = JsValue.str BSC_NETWORK.chainId then
          let s := { s with status := "Already on Binance Smart Chain. Adding token...", statusType := "info" }
          let o := watchPhase origin orc (n + 1) s
          ⟨(), o.st, o.idx, (.ethChainId, .ok v) :: o.tr⟩
        else
          let s := { s with status := "Switching to Binance Smart Chain before adding token..."
                            statusType := "info" }
          let o1 := switchToBSC orc (n + 1) s
          if o1.ret then
            let s2 := { o1.st with status := "Successfully switched to Binance Smart Chain. Now adding token..."
                                   statusType := "success" }
            let o2 := watchPhase origin orc o1.idx s2
            ⟨(), o2.st, o2.idx, (.ethChainId, .ok v) :: o1.tr ++ o2.tr⟩
          else
            ⟨(), addTokenFail switchFailErr o1.st, o1.idx, (.ethChainId, .ok v) :: o1.tr⟩

/-- The `accountsChanged` handler registered by `setupChainChangeListener`
(src/App.js 1051-1076): an empty list clears the session; a first entry
different from the current address adopts it, refreshes the balance and re-runs
reconciliation; otherwise nothing happens.  `getBalance` and
`ensureCorrectNetwork` swallow their own failures, so the handler's `catch` is
unreachable. -/
def onAccountsChanged (accounts : List String) (orc : Oracle) (n : Nat) (s : AppState) : Out Unit :=
  match accounts with
  | [] =>
      ⟨(), { s with account := none, isConnected := false, balance := "0"
                    status := "Wallet disconnected.", statusType := "info" },
       n, []⟩
  | a :: _ =>
      if some a ≠ s.account then
        let s1 := { s with account := some a, isConnected := true }
        let o1 := getBalance (some a) orc n s1
        let o2 := ensureCorrectNetwork orc o1.idx o1.st
        ⟨(), o2.st, o2.idx, o1.tr ++ o2.tr⟩
      else ⟨(), s, n, []⟩

/-- `disconnectWallet` (src/App.js 1079-1085): a synchronous, local-only state
reset — it issues no provider call (empty log) and leaves the oracle index
untouched. -/
def disconnectWallet (_orc : Oracle) (n : Nat) (s : AppState) : Out Unit :=
  ⟨(), { s with account := none, isConnected := false, balance := "0"
                status := "Wallet disconnected.", statusType := "info" },
   n, []⟩

/-- `maxRetries` (src/App.js 524). -/
def maxRetries : Nat := 3

/-- The template literal of the retry status (src/App.js 1098). -/
def retryingMsg (operationName : String) (attempt : Nat) : String :=
  "Retrying " ++ operationName ++ "... (Attempt " ++ toString attempt ++ "/" ++
    toString maxRetries ++ ")"

/-- The entry-guard message of `retryOperation` (src/App.js 1090). -/
def failedAfterMsg : String :=
  "Failed after " ++ toString maxRetries ++ " attempts. Please refresh the page and try again."

/-- One invocation chain of `retryOperation` (src/App.js 1088-1120).  The
wrapped operation is abstracted to its outcome per attempt (`op k = none` means
attempt `k` resolved; `some e` means it rejected with `e`); its own state
effects and the 2-second `setTimeout` delay are out of scope.  `fuel` bounds
the recursion that the source performs through `setTimeout`; callers pass
`maxRetries + 1`, which the guard structure can never exhaust, so the `0` case
is unreachable. -/
def retryGo : Nat → (Nat → Option ErrObj) → String → Nat → AppState → AppState
  | 0, _, _, _, s => s
  | fuel + 1, op, operationName, k, s =>
      if maxRetries ≤ s.retryCount then
        { s with status := failedAfterMsg, statusType := "error", retryCount := 0 }
      else
        let c := s.retryCount
        let s1 := { s with retryCount := c + 1
                           status := retryingMsg operationName (c + 1), statusType := "info" }
        match op k with
        | none => { s1 with retryCount := 0 }
        | some e =>
            if c + 1 < maxRetries then retryGo fuel op operationName (k + 1) s1
            else { s1 with status := (getErrorMessage e).userFriendly, statusType := "error"
                           retryCount := 0 }

/-- `retryOperation` started on a fresh operation (attempt indices from 0). -/
def retryOperation (op : Nat → Option ErrObj) (operationName : String) (s : AppState) : AppState :=
  retryGo (maxRetries + 1) op operationName 0 s

/-- The log entry is a `wallet_addEthereumChain` request carrying the full
`BSC_NETWORK` descriptor. -/
def isAddBSC (r : Request) : Bool :=
  decide (r = Request.walletAddEthereumChain BSC_NETWORK)

/-- Some `wallet_addEthereumChain BSC_NETWORK` request occurs in the log. -/
def hasAddBSC (t : CallLog) : Bool := t.any fun p => isAddBSC p.1

/-- The log entry is some `wallet_watchAsset` request. -/
def isWatchReq : Request → Bool
  | .walletWatchAsset _ => true
  | _ => false

/-- Some `wallet_watchAsset` request occurs in the log. -/
def hasWatch (t : CallLog) : Bool := t.any fun p => isWatchReq p.1

/-- The chain id most recently observed over the log, starting from `init`:
an `eth_chainId` response overwrites it (a failed read clears it). -/
def lastChainId (init : Option JsValue) : CallLog → Option JsValue
  | [] => init
  | (Request.ethChainId, RpcResult.ok v) :: rest => lastChainId (some v) rest
  | (Request.ethChainId, RpcResult.err _) :: rest => lastChainId none rest
  | _ :: rest => lastChainId init rest

/-- Every `wallet_watchAsset` request in the log is issued while the most
recently observed chain id (starting from `init`) is the target `0x38`. -/
def watchSafe (init : Option JsValue) : CallLog → Bool
  | [] => true
  | (Request.ethChainId, RpcResult.ok v) :: rest => watchSafe (some v) rest
  | (Request.ethChainId, RpcResult.err _) :: rest => watchSafe none rest
  | (Request.walletWatchAsset _, _) :: rest =>
      decide (init = some (JsValue.str BSC_NETWORK.chainId)) && watchSafe init rest
  | _ :: rest => watchSafe init rest

/-- The session invariant of the spec's data model: the address is stored
exactly when the connected flag is set. -/
def sessionInv (s : AppState) : Prop := s.account.isSome = s.isConnected

/-- A disconnected state with a detected provider, used as concrete input. -/
def s0 : AppState :=
  { account := none, isConnected := false, provider := some (), web3 := some ()
    status := "", statusType := "", balance := "0", isLoading := false
    logoUrl := "/new-tether-logo.png", currentNetwork := "", metamaskLogoUrl := ""
    retryCount := 0 }

/-- A connected state on some account, used as concrete input. -/
def sConn : AppState :=
  { s0 with account := some "0xabcdef0123456789" , isConnected := true }

/-- Oracle of the C1 counterexample: the switch request resolves, then the
`eth_chainId` re-read itself rejects with code 4902, the add-chain request
resolves and the final re-read returns the target. -/
def orcSwitchOkReadErr : Oracle := fun k =>
  match k with
  | 0 => .ok .null
  | 1 => .err ⟨some 4902, none⟩
  | 2 => .ok .null
  | _ => .ok (.str "0x38")

/-- Oracle of the C2 counterexample: already on BSC, then every
`wallet_watchAsset` request rejects with the user-cancelled code 4001. -/
def orcUserCancelsWatch : Oracle := fun k =>
  match k with
  | 0 => .ok (.str "0x38")
  | _ => .err ⟨some 4001, none⟩

/-- An operation that rejects on every attempt with a code-less, message-less
error (C4). -/
def opAlwaysFail : Nat → Option ErrObj := fun _ => some ⟨none, none⟩

/-- An operation that rejects on attempt 0 and resolves on attempt 1 (C4). -/
def opFailThenOk : Nat → Option ErrObj := fun k => if k = 0 then some ⟨none, none⟩ else none

/-- Oracle answering every `eth_chainId` read with the target chain (C7). -/
def orcOnBSC : Oracle := fun _ => .ok (.str "0x38")

/-- Oracle whose account request resolves to the empty list (C8). -/
def orcEmptyAccounts : Oracle := fun _ => .ok (.addrList [])

/-- Oracle for a clean connect: one account, already on BSC, balance 1 BNB. -/
def orcHappyConnect : Oracle := fun k =>
  match k with
  | 0 => .ok (.addrList ["0xa11ce00000000000"])
  | 1 => .ok (.str "0x38")
  | _ => .ok (.wei 1000000000000000000)

/-- Oracle for the accounts-changed witness: balance read first, then chain. -/
def orcBalanceThenChain : Oracle := fun k =>
  match k with
  | 0 => .ok (.wei 2000000000000000000)
  | _ => .ok (.str "0x38")

/-- Oracle whose account request rejects with the user-cancelled code 4001. -/
def orcRejectConnect : Oracle := fun _ => .err ⟨some 4001, some "User rejected the request."⟩

/-- Oracle where the switch rejects with 4902, the add resolves, and the
re-read lands on the target (the classic add-chain path). -/
def orcSwitch4902 : Oracle := fun k =>
  match k with
  | 0 => .err ⟨some 4902, none⟩
  | 1 => .ok .null
  | _ => .ok (.str "0x38")

/-! ### Helper lemmas about the network-reconciliation handlers -/

theorem catchSwitch_frame (orc : Oracle) (n : Nat) (s : AppState) (e : ErrObj) :
    (catchSwitch orc n s e).st.account = s.account ∧
    (catchSwitch orc n s e).st.isConnected = s.isConnected ∧
    (catchSwitch orc n s e).st.balance = s.balance ∧
    (catchSwitch orc n s e).st.provider = s.provider ∧
    (catchSwitch orc n s e).st.web3 = s.web3 ∧
    (catchSwitch orc n s e).st.isLoading = s.isLoading := by
  unfold catchSwitch addNetworkFail
  rcases h : orc n with v | ae <;> rcases h2 : orc (n + 1) with v2 | ae2 <;>
    by_cases hc : e.code = some 4902 <;> simp [h, h2, hc] <;> split <;> simp

theorem switchToBSC_frame (orc : Oracle) (n : Nat) (s : AppState) :
    (switchToBSC orc n s).st.account = s.account ∧
    (switchToBSC orc n s).st.isConnected = s.isConnected ∧
    (switchToBSC orc n s).st.balance = s.balance ∧
    (switchToBSC orc n s).st.provider = s.provider ∧
    (switchToBSC orc n s).st.web3 = s.web3 ∧
    (switchToBSC orc n s).st.isLoading = s.isLoading := by
  unfold switchToBSC
  rcases hp : s.provider with _ | u
  · simp [hp]
  · rcases h : orc n with v | e
    · rcases h2 : orc (n + 1) with v2 | e2
      · by_cases hv : v2 = JsValue.str BSC_NETWORK.chainId
        · simp [hp, h, h2, hv]
        · simpa [hp, h, h2, hv] using catchSwitch_frame orc (n + 2) s _
      · simpa [hp, h, h2] using catchSwitch_frame orc (n + 2) s e2
    · simpa [hp, h] using catchSwitch_frame orc (n + 1) s e

theorem ensureCorrectNetwork_frame (orc : Oracle) (n : Nat) (s : AppState) :
    (ensureCorrectNetwork orc n s).st.account = s.account ∧
    (ensureCorrectNetwork orc n s).st.isConnected = s.isConnected ∧
    (ensureCorrectNetwork orc n s).st.balance = s.balance ∧
    (ensureCorrectNetwork orc n s).st.provider = s.provider ∧
    (ensureCorrectNetwork orc n s).st.web3 = s.web3 ∧
    (ensureCorrectNetwork orc n s).st.isLoading = s.isLoading := by
  unfold ensureCorrectNetwork
  rcases hp : s.provider with _ | u
  · simp [hp]
  · rcases h : orc n with v | e
    · by_cases hv : v = JsValue.str BSC_NETWORK.chainId
      · simp [hp, h, hv]
      · simpa [hp, h, hv] using
          switchToBSC_frame orc (n + 1)
            { s with status := "Switching to Binance Smart Chain automatically..."
                     statusType := "info" }
    · simp [hp, h]

theorem getBalance_frame (addr : Option String) (orc : Oracle) (n : Nat) (s : AppState) :
    (getBalance addr orc n s).st.account = s.account ∧
    (getBalance addr orc n s).st.isConnected = s.isConnected ∧
    (getBalance addr orc n s).st.provider = s.provider ∧
    (getBalance addr orc n s).st.web3 = s.web3 ∧
    (getBalance addr orc n s).st.isLoading = s.isLoading := by
  unfold getBalance
  rcases hw : s.web3 with _ | u
  · simp [hw]
  · rcases addr with _ | a
    · simp [hw]
    · by_cases ha : a = "" <;> rcases h : orc n with v | e <;> simp [hw, ha, h]

@[simp]
theorem switchToBSC_st_account (orc : Oracle) (n : Nat) (s : AppState) :
    (switchToBSC orc n s).st.account = s.account := (switchToBSC_frame orc n s).1

@[simp]
theorem switchToBSC_st_isConnected (orc : Oracle) (n : Nat) (s : AppState) :
    (switchToBSC orc n s).st.isConnected = s.isConnected := (switchToBSC_frame orc n s).2.1

@[simp]
theorem switchToBSC_st_balance (orc : Oracle) (n : Nat) (s : AppState) :
    (switchToBSC orc n s).st.balance = s.balance := (switchToBSC_frame orc n s).2.2.1

@[simp]
theorem switchToBSC_st_provider (orc : Oracle) (n : Nat) (s : AppState) :
    (switchToBSC orc n s).st.provider = s.provider := (switchToBSC_frame orc n s).2.2.2.1

@[simp]
theorem switchToBSC_st_web3 (orc : Oracle) (n : Nat) (s : AppState) :
    (switchToBSC orc n s).st.web3 = s.web3 := (switchToBSC_frame orc n s).2.2.2.2.1

@[simp]
theorem switchToBSC_st_isLoading (orc : Oracle) (n : Nat) (s : AppState) :
    (switchToBSC orc n s).st.isLoading = s.isLoading := (switchToBSC_frame orc n s).2.2.2.2.2

@[simp]
theorem ensure_st_account (orc : Oracle) (n : Nat) (s : AppState) :
    (ensureCorrectNetwork orc n s).st.account = s.account :=
  (ensureCorrectNetwork_frame orc n s).1

@[simp]
theorem ensure_st_isConnected (orc : Oracle) (n : Nat) (s : AppState) :
    (ensureCorrectNetwork orc n s).st.isConnected = s.isConnected :=
  (ensureCorrectNetwork_frame orc n s).2.1

@[simp]
theorem ensure_st_balance (orc : Oracle) (n : Nat) (s : AppState) :
    (ensureCorrectNetwork orc n s).st.balance = s.balance :=
  (ensureCorrectNetwork_frame orc n s).2.2.1

@[simp]
theorem ensure_st_provider (orc : Oracle) (n : Nat) (s : AppState) :
    (ensureCorrectNetwork orc n s).st.provider = s.provider :=
  (ensureCorrectNetwork_frame orc n s).2.2.2.1

@[simp]
theorem ensure_st_web3 (orc : Oracle) (n : Nat) (s : AppState) :
    (ensureCorrectNetwork orc n s).st.web3 = s.web3 :=
  (ensureCorrectNetwork_frame orc n s).2.2.2.2.1

@[simp]
theorem ensure_st_isLoading (orc : Oracle) (n : Nat) (s : AppState) :
    (ensureCorrectNetwork orc n s).st.isLoading = s.isLoading :=
  (ensureCorrectNetwork_frame orc n s).2.2.2.2.2

@[simp]
theorem getBalance_st_account (addr : Option String) (orc : Oracle) (n : Nat) (s : AppState) :
    (getBalance addr orc n s).st.account = s.account := (getBalance_frame addr orc n s).1

@[simp]
theorem getBalance_st_isConnected (addr : Option String) (orc : Oracle) (n : Nat) (s : AppState) :
    (getBalance addr orc n s).st.isConnected = s.isConnected :=
  (getBalance_frame addr orc n s).2.1

@[simp]
theorem getBalance_st_provider (addr : Option String) (orc : Oracle) (n : Nat) (s : AppState) :
    (getBalance addr orc n s).st.provider = s.provider := (getBalance_frame addr orc n s).2.2.1

@[simp]
theorem getBalance_st_web3 (addr : Option String) (orc : Oracle) (n : Nat) (s : AppState) :
    (getBalance addr orc n s).st.web3 = s.web3 := (getBalance_frame addr orc n s).2.2.2.1

@[simp]
theorem getBalance_st_isLoading (addr : Option String) (orc : Oracle) (n : Nat) (s : AppState) :
    (getBalance addr orc n s).st.isLoading = s.isLoading :=
  (getBalance_frame addr orc n s).2.2.2.2

@[simp]
theorem getBalance_st_status (addr : Option String) (orc : Oracle) (n : Nat) (s : AppState) :
    (getBalance addr orc n s).st.status = s.status := by
  unfold getBalance
  rcases hw : s.web3 with _ | u
  · simp [hw]
  · rcases addr with _ | a
    · simp [hw]
    · by_cases ha : a = "" <;> rcases h : orc n with v | e <;> simp [hw, ha, h]

theorem callLogLast {α : Type} (l : List α) (x : α) : (l ++ [x]).getLast? = some x := by
  rw [List.getLast?_append_cons]
  rfl

/-- When the provider is present, the first call `ensureCorrectNetwork` issues
is the `eth_chainId` read. -/
theorem ensureCorrectNetwork_tr_head (orc : Oracle) (n : Nat) (s : AppState)
    (hp : s.provider = some ()) :
    ∃ t, (ensureCorrectNetwork orc n s).tr = (Request.ethChainId, orc n) :: t := by
  unfold ensureCorrectNetwork
  rcases h : orc n with v | e
  · by_cases hv : v = JsValue.str BSC_NETWORK.chainId <;> simp [hp, h, hv]
  · simp [hp, h]

@[simp]
theorem hasAddBSC_nil : hasAddBSC [] = false := rfl

@[simp]
theorem hasAddBSC_cons (p : Request × RpcResult) (t : CallLog) :
    hasAddBSC (p :: t) = (isAddBSC p.1 || hasAddBSC t) := by
  simp [hasAddBSC]

@[simp]
theorem hasWatch_nil : hasWatch [] = false := rfl

@[simp]
theorem hasWatch_cons (p : Request × RpcResult) (t : CallLog) :
    hasWatch (p :: t) = (isWatchReq p.1 || hasWatch t) := by
  simp [hasWatch]

@[simp]
theorem hasWatch_append (t1 t2 : CallLog) :
    hasWatch (t1 ++ t2) = (hasWatch t1 || hasWatch t2) := by
  simp [hasWatch, List.any_append]

/-- The catch block issues the add-chain request exactly when the caught error
carries code 4902. -/
theorem catchSwitch_hasAdd (orc : Oracle) (n : Nat) (s : AppState) (e : ErrObj) :
    hasAddBSC (catchSwitch orc n s e).tr = decide (e.code = some 4902) := by
  unfold catchSwitch
  by_cases hc : e.code = some 4902
  · rcases h : orc n with v | ae
    · rcases h2 : orc (n + 1) with v2 | ae2
      · by_cases hv : v2 = JsValue.str BSC_NETWORK.chainId <;>
          simp [hc, h, h2, hv, hasAddBSC, isAddBSC]
      · simp [hc, h, h2, hasAddBSC, isAddBSC]
    · simp [hc, h, hasAddBSC, isAddBSC]
  · simp [hc, hasAddBSC]

/-- A `wallet_addEthereumChain BSC_NETWORK` request occurs in a `switchToBSC`
run exactly when the error caught from the switch-then-verify block carries
code 4902: either the switch request itself rejected with 4902, or the switch
resolved and the `eth_chainId` re-read rejected with 4902.  (The synthesized
verification-failure error carries no code, so it never triggers the add.) -/
theorem switchToBSC_hasAdd (orc : Oracle) (n : Nat) (s : AppState)
    (hp : s.provider = some ()) :
    hasAddBSC (switchToBSC orc n s).tr =
      ((orc n).fails4902 || ((orc n).isOk && (orc (n + 1)).fails4902)) := by
  unfold switchToBSC
  rcases h : orc n with v | e
  · rcases h2 : orc (n + 1) with v2 | e2
    · by_cases hv : v2 = JsValue.str BSC_NETWORK.chainId
      · simp [hp, h, h2, hv, isAddBSC, RpcResult.fails4902, RpcResult.isOk]
      · simp [hp, h, h2, hv, isAddBSC, RpcResult.fails4902, RpcResult.isOk,
              catchSwitch_hasAdd]
    · simp [hp, h, h2, isAddBSC, RpcResult.fails4902, RpcResult.isOk, catchSwitch_hasAdd]
  · simp [hp, h, isAddBSC, RpcResult.fails4902, RpcResult.isOk, catchSwitch_hasAdd]

/-- The first call a (provider-present) `switchToBSC` run issues is the switch
request targeting `0x38`. -/
theorem switchToBSC_tr_head (orc : Oracle) (n : Nat) (s : AppState)
    (hp : s.provider = some ()) :
    ∃ t, (switchToBSC orc n s).tr =
      (Request.walletSwitchEthereumChain BSC_NETWORK.chainId, orc n) :: t := by
  unfold switchToBSC
  rcases h : orc n with v | e
  · rcases h2 : orc (n + 1) with v2 | e2
    · by_cases hv : v2 = JsValue.str BSC_NETWORK.chainId <;> simp [hp, h, h2, hv]
    · simp [hp, h, h2]
  · simp [hp, h]

/-- `catchSwitch` returns `true` only after a final `eth_chainId` re-read that
resolved to the target, whatever chain id had been observed before. -/
theorem catchSwitch_true_lastChainId (orc : Oracle) (n : Nat) (s : AppState) (e : ErrObj)
    (init : Option JsValue) (h : (catchSwitch orc n s e).ret = true) :
    lastChainId init (catchSwitch orc n s e).tr = some (JsValue.str BSC_NETWORK.chainId) := by
  unfold catchSwitch at h ⊢
  by_cases hc : e.code = some 4902
  · rcases h1 : orc n with v | ae
    · rcases h2 : orc (n + 1) with v2 | ae2
      · by_cases hv : v2 = JsValue.str BSC_NETWORK.chainId
        · subst hv; simp [hc, h1, h2, lastChainId]
        · simp [hc, h1, h2, hv] at h
      · simp [hc, h1, h2] at h
    · simp [hc, h1] at h
  · simp [hc] at h

/-- `switchToBSC` returns `true` only after a final `eth_chainId` re-read that
resolved to the target `0x38`. -/
theorem switchToBSC_true_lastChainId (orc : Oracle) (n : Nat) (s : AppState)
    (init : Option JsValue) (h : (switchToBSC orc n s).ret = true) :
    lastChainId init (switchToBSC orc n s).tr = some (JsValue.str BSC_NETWORK.chainId) := by
  unfold switchToBSC at h ⊢
  rcases hp : s.provider with _ | u
  · simp [hp] at h
  · rcases h1 : orc n with v | e
    · rcases h2 : orc (n + 1) with v2 | e2
      · by_cases hv : v2 = JsValue.str BSC_NETWORK.chainId
        · subst hv; simp [hp, h1, h2, lastChainId]
        · simp [hp, h1, h2, hv] at h ⊢
          simpa [lastChainId] using catchSwitch_true_lastChainId orc (n + 2) s _ (some v2) h
      · simp [hp, h1, h2] at h ⊢
        simpa [lastChainId] using catchSwitch_true_lastChainId orc (n + 2) s e2 none h
    · simp [hp, h1] at h ⊢
      simpa [lastChainId] using catchSwitch_true_lastChainId orc (n + 1) s e init h

/-- `catchSwitch` never issues a `wallet_watchAsset` request. -/
theorem catchSwitch_noWatch (orc : Oracle) (n : Nat) (s : AppState) (e : ErrObj) :
    hasWatch (catchSwitch orc n s e).tr = false := by
  unfold catchSwitch
  by_cases hc : e.code = some 4902
  · rcases h : orc n with v | ae
    · rcases h2 : orc (n + 1) with v2 | ae2
      · by_cases hv : v2 = JsValue.str BSC_NETWORK.chainId <;>
          simp [hc, h, h2, hv, isWatchReq]
      · simp [hc, h, h2, isWatchReq]
    · simp [hc, h, isWatchReq]
  · simp [hc]

/-- `switchToBSC` never issues a `wallet_watchAsset` request. -/
theorem switchToBSC_noWatch (orc : Oracle) (n : Nat) (s : AppState) :
    hasWatch (switchToBSC orc n s).tr = false := by
  unfold switchToBSC
  rcases hp : s.provider with _ | u
  · simp [hp]
  · rcases h : orc n with v | e
    · rcases h2 : orc (n + 1) with v2 | e2
      · by_cases hv : v2 = JsValue.str BSC_NETWORK.chainId
        · simp [hp, h, h2, hv, isWatchReq]
        · simp [hp, h, h2, hv, isWatchReq, catchSwitch_noWatch]
      · simp [hp, h, h2, isWatchReq, catchSwitch_noWatch]
    · simp [hp, h, isWatchReq, catchSwitch_noWatch]

theorem watchSafe_append (t1 t2 : CallLog) :
    ∀ init, watchSafe init (t1 ++ t2) =
      (watchSafe init t1 && watchSafe (lastChainId init t1) t2) := by
  induction t1 with
  | nil => intro init; simp [watchSafe, lastChainId]
  | cons hd tl ih =>
      intro init
      obtain ⟨req, res⟩ := hd
      cases req <;> cases res <;> simp [watchSafe, lastChainId, ih, Bool.and_assoc]

theorem watchSafe_of_noWatch (t : CallLog) (h : hasWatch t = false) :
    ∀ init, watchSafe init t = true := by
  induction t with
  | nil => intro init; rfl
  | cons hd tl ih =>
      intro init
      obtain ⟨req, res⟩ := hd
      simp [isWatchReq] at h
      cases req <;> cases res <;> simp_all [watchSafe, isWatchReq]

/-- Every request the registration phase issues is a `wallet_watchAsset`, and
it only runs while the chain id observed last is the target. -/
theorem watchPhase_watchSafe (origin : String) (orc : Oracle) (n : Nat) (s : AppState) :
    watchSafe (some (JsValue.str BSC_NETWORK.chainId)) (watchPhase origin orc n s).tr = true := by
  unfold watchPhase
  rcases h : orc n with v | e1
  · by_cases hv : v.truthy <;> simp [h, hv, watchSafe]
  · rcases h2 : orc (n + 1) with v2 | e2
    · by_cases hv : v2.truthy <;> simp [h, h2, hv, watchSafe]
    · simp [h, h2, watchSafe]

/-- A run of `ensureCorrectNetwork` whose `eth_chainId` read resolves to the
target chain: one provider call and an unconditional `currentNetwork` update. -/
theorem ensure_onTarget (orc : Oracle) (n : Nat) (s : AppState)
    (hp : s.provider = some ()) (hk : orc n = .ok (.str BSC_NETWORK.chainId)) :
    ensureCorrectNetwork orc n s =
      ⟨(), { s with currentNetwork := "Binance Smart Chain" }, n + 1,
       [(.ethChainId, .ok (.str BSC_NETWORK.chainId))]⟩ := by
  unfold ensureCorrectNetwork
  simp [hp, hk]

/-- A `getBalance` run with web3 present and a non-empty address: one
`eth_getBalance` call whose outcome determines the stored balance. -/
theorem getBalance_run (a : String) (orc : Oracle) (n : Nat) (s : AppState)
    (hw : s.web3 = some ()) (ha : a ≠ "") :
    getBalance (some a) orc n s =
      ⟨(), { s with balance := match orc n with | .ok v => formatBalance v | .err _ => "0" },
       n + 1, [(.ethGetBalance a, orc n)]⟩ := by
  unfold getBalance
  rcases h : orc n with v | e <;> simp [hw, ha, h]

/-! ### Claim C3 — the error classifier -/

/-- Claim C3 counterexample: the claim asserts the six listed kinds are
pairwise distinct values of the taxonomy, but the code maps the 4902 case, the
"network" case and the "timeout" case all to the same kind `NETWORK_ERROR`
(and -32601 to `PROVIDER_ERROR`): the taxonomy of `ErrorTypes` has only four
values, so "NetworkUnknown", "NetworkError" and "Timeout" coincide. -/
theorem C3_counterexample :
    (getErrorMessage ⟨some 4902, none⟩).type =
        (getErrorMessage ⟨none, some "a timeout error"⟩).type ∧
    (getErrorMessage ⟨none, some "network down"⟩).type =
        (getErrorMessage ⟨none, some "a timeout error"⟩).type ∧
    (getErrorMessage ⟨some 4902, none⟩).type = ErrorTypes.NETWORK_ERROR := by
  decide

/-- Claim C3 (amended): `getErrorMessage` is a pure, deterministic, total
function of the raw error, whose branches — checked in source order — map
code 4001 to kind `USER_REJECTED`, code -32601 to `PROVIDER_ERROR` (the code's
rendering of MethodUnsupported), and code 4902, a message containing
"network", and a message containing "timeout" all to the single kind
`NETWORK_ERROR` (distinguished only by their `message` field), with
`UNKNOWN_ERROR` in every remaining case; the kinds are thus four, not six,
pairwise distinct values. -/
theorem C3_theorem (e : ErrObj) :
    (e.code = some 4001 → (getErrorMessage e).type = ErrorTypes.USER_REJECTED) ∧
    (e.code ≠ some 4001 → e.code = some (-32601) →
      (getErrorMessage e).type = ErrorTypes.PROVIDER_ERROR) ∧
    (e.code ≠ some 4001 → e.code ≠ some (-32601) → e.code = some 4902 →
      (getErrorMessage e).type = ErrorTypes.NETWORK_ERROR ∧
      (getErrorMessage e).message = "Network not found in wallet.") ∧
    (e.code ≠ some 4001 → e.code ≠ some (-32601) → e.code ≠ some 4902 →
      msgIncludes e "network" = true →
      (getErrorMessage e).type = ErrorTypes.NETWORK_ERROR ∧
      (getErrorMessage e).message = "Network connection error.") ∧
    (e.code ≠ some 4001 → e.code ≠ some (-32601) → e.code ≠ some 4902 →
      msgIncludes e "network" = false → msgIncludes e "timeout" = true →
      (getErrorMessage e).type = ErrorTypes.NETWORK_ERROR ∧
      (getErrorMessage e).message = "Request timeout.") ∧
    (e.code ≠ some 4001 → e.code ≠ some (-32601) → e.code ≠ some 4902 →
      msgIncludes e "network" = false → msgIncludes e "timeout" = false →
      (getErrorMessage e).type = ErrorTypes.UNKNOWN_ERROR) :=
  ⟨fun h1 => by simp [getErrorMessage, h1],
   fun h1 h2 => by simp [getErrorMessage, h1, h2],
   fun h1 h2 h3 => by simp [getErrorMessage, h1, h2, h3],
   fun h1 h2 h3 h4 => by simp [getErrorMessage, h1, h2, h3, h4],
   fun h1 h2 h3 h4 h5 => by simp [getErrorMessage, h1, h2, h3, h4, h5],
   fun h1 h2 h3 h4 h5 => by simp [getErrorMessage, h1, h2, h3, h4, h5]⟩

/-- Witness for C3_theorem: each branch evaluated at a concrete error. -/
theorem C3_witness :
    (getErrorMessage ⟨some 4001, none⟩).type = ErrorTypes.USER_REJECTED ∧
    (getErrorMessage ⟨some (-32601), none⟩).type = ErrorTypes.PROVIDER_ERROR ∧
    (getErrorMessage ⟨some 4902, none⟩).type = ErrorTypes.NETWORK_ERROR ∧
    (getErrorMessage ⟨none, some "network down"⟩).type = ErrorTypes.NETWORK_ERROR ∧
    (getErrorMessage ⟨none, some "a timeout error"⟩).type = ErrorTypes.NETWORK_ERROR ∧
    (getErrorMessage ⟨none, some "odd failure"⟩).type = ErrorTypes.UNKNOWN_ERROR :=
  ⟨(C3_theorem ⟨some 4001, none⟩).1 rfl,
   (C3_theorem ⟨some (-32601), none⟩).2.1 (by decide) rfl,
   ((C3_theorem ⟨some 4902, none⟩).2.2.1 (by decide) (by decide) rfl).1,
   ((C3_theorem ⟨none, some "network down"⟩).2.2.2.1
      (by decide) (by decide) (by decide) (by decide)).1,
   ((C3_theorem ⟨none, some "a timeout error"⟩).2.2.2.2.1
      (by decide) (by decide) (by decide) (by decide) (by decide)).1,
   (C3_theorem ⟨none, some "odd failure"⟩).2.2.2.2.2
      (by decide) (by decide) (by decide) (by decide) (by decide)⟩

/-! ### Claim C10 — the frame of disconnectWallet -/

/-- Claim C10: `disconnectWallet` issues no provider RPC call (empty log) and
mutates only the account (to none), the connected flag (to false), the balance
(to "0") and the status message; the provider handle, the web3 instance and
the current-network value — like every other field — are unchanged. -/
theorem C10_theorem (orc : Oracle) (n : Nat) (s : AppState) :
    disconnectWallet orc n s =
      ⟨(), { s with account := none, isConnected := false, balance := "0"
                    status := "Wallet disconnected.", statusType := "info" }, n, []⟩ ∧
    (disconnectWallet orc n s).st.provider = s.provider ∧
    (disconnectWallet orc n s).st.web3 = s.web3 ∧
    (disconnectWallet orc n s).st.currentNetwork = s.currentNetwork ∧
    (disconnectWallet orc n s).st.logoUrl = s.logoUrl ∧
    (disconnectWallet orc n s).st.retryCount = s.retryCount ∧
    (disconnectWallet orc n s).tr = [] :=
  ⟨rfl, rfl, rfl, rfl, rfl, rfl, rfl⟩

/-! ### Claim C9 — the session invariant -/

/-- Claim C9: the invariant "address stored iff connected" is preserved by
`checkConnection`, `connectWallet`, `disconnectWallet` and the
`accountsChanged` handler, for every prior state satisfying it, every oracle
and every event payload. -/
theorem C9_theorem (detected : Bool) (accounts : List String) (orc : Oracle) (n : Nat)
    (s : AppState) (h : sessionInv s) :
    sessionInv (checkConnection detected orc n s).st ∧
    sessionInv (connectWallet orc n s).st ∧
    sessionInv (disconnectWallet orc n s).st ∧
    sessionInv (onAccountsChanged accounts orc n s).st := by
  refine ⟨?_, ?_, ?_, ?_⟩
  · unfold checkConnection
    cases detected
    · simpa [sessionInv] using h
    · rcases h1 : orc n with v | e
      · cases v with
        | addrList xs =>
            cases xs with
            | nil => simpa [h1, sessionInv] using h
            | cons a rest => simp [h1, sessionInv]
        | null => simpa [h1, sessionInv] using h
        | str v => simpa [h1, sessionInv] using h
        | boolean b => simpa [h1, sessionInv] using h
        | wei m => simpa [h1, sessionInv] using h
      · simpa [h1, sessionInv] using h
  · unfold connectWallet
    rcases hp : s.provider with _ | u
    · simpa [hp, sessionInv] using h
    · rcases h1 : orc n with v | e
      · cases v with
        | addrList xs =>
            cases xs with
            | nil => simpa [hp, h1, sessionInv] using h
            | cons a rest => simp [hp, h1, sessionInv]
        | null => simpa [hp, h1, sessionInv] using h
        | str v => simpa [hp, h1, sessionInv] using h
        | boolean b => simpa [hp, h1, sessionInv] using h
        | wei m => simpa [hp, h1, sessionInv] using h
      · simpa [hp, h1, sessionInv] using h
  · simp [disconnectWallet, sessionInv]
  · unfold onAccountsChanged
    cases accounts with
    | nil => simp [sessionInv]
    | cons a rest =>
        by_cases hd : some a ≠ s.account
        · simp [hd, sessionInv]
        · simpa [hd, sessionInv] using h

/-- Witness for C9_theorem at a concrete connected run. -/
theorem C9_witness :
    sessionInv (checkConnection true orcHappyConnect 0 s0).st ∧
    sessionInv (connectWallet orcHappyConnect 0 s0).st ∧
    sessionInv (disconnectWallet orcHappyConnect 0 s0).st ∧
    sessionInv (onAccountsChanged ["0xb0b0000000000000"] orcBalanceThenChain 0 sConn).st := by
  have h1 := C9_theorem true ["0xb0b0000000000000"] orcHappyConnect 0 s0 rfl
  have h2 := C9_theorem true ["0xb0b0000000000000"] orcBalanceThenChain 0 sConn rfl
  exact ⟨h1.1, h1.2.1, h1.2.2.1, h2.2.2.2⟩

/-! ### Claim C7 — reconciliation when already on target -/

/-- Claim C7 counterexample: with the provider already on the target chain, a
second consecutive `ensureCorrectNetwork` invocation still performs one
provider call — the `eth_chainId` read — not zero.  (The handler also returns
`undefined`, not `true`: its embedded return type is `Unit`.) -/
theorem C7_counterexample :
    (ensureCorrectNetwork orcOnBSC 0 ((ensureCorrectNetwork orcOnBSC 0 s0).st)).tr =
      [(.ethChainId, .ok (.str "0x38"))] ∧
    ((ensureCorrectNetwork orcOnBSC 0 ((ensureCorrectNetwork orcOnBSC 0 s0).st)).tr).length
      = 1 := by
  decide

/-- Claim C7 (amended): with the provider present and every `eth_chainId` read
answering the target `0x38`, `ensureCorrectNetwork` sets `currentNetwork` and
changes nothing else, and it is idempotent on state — but each invocation,
including the second consecutive one, issues exactly one provider call (the
`eth_chainId` read); the handler returns no boolean at all. -/
theorem C7_theorem (orc : Oracle) (n : Nat) (s : AppState)
    (hp : s.provider = some ())
    (hc : ∀ k, orc k = .ok (.str BSC_NETWORK.chainId)) :
    (ensureCorrectNetwork orc n s).st = { s with currentNetwork := "Binance Smart Chain" } ∧
    (ensureCorrectNetwork orc n s).tr = [(.ethChainId, .ok (.str BSC_NETWORK.chainId))] ∧
    (ensureCorrectNetwork orc (ensureCorrectNetwork orc n s).idx
        (ensureCorrectNetwork orc n s).st).st = (ensureCorrectNetwork orc n s).st ∧
    (ensureCorrectNetwork orc (ensureCorrectNetwork orc n s).idx
        (ensureCorrectNetwork orc n s).st).tr =
      [(.ethChainId, .ok (.str BSC_NETWORK.chainId))] := by
  have h1 := ensure_onTarget orc n s hp (hc n)
  have h2 := ensure_onTarget orc (n + 1)
    { s with currentNetwork := "Binance Smart Chain" } hp (hc (n + 1))
  refine ⟨?_, ?_, ?_, ?_⟩ <;> simp [h1, h2]

/-- Witness for C7_theorem on a concrete state and oracle. -/
theorem C7_witness :
    (ensureCorrectNetwork orcOnBSC 0 s0).st =
      { s0 with currentNetwork := "Binance Smart Chain" } ∧
    (ensureCorrectNetwork orcOnBSC 0 s0).tr =
      [(.ethChainId, .ok (.str BSC_NETWORK.chainId))] ∧
    (ensureCorrectNetwork orcOnBSC (ensureCorrectNetwork orcOnBSC 0 s0).idx
        (ensureCorrectNetwork orcOnBSC 0 s0).st).st = (ensureCorrectNetwork orcOnBSC 0 s0).st ∧
    (ensureCorrectNetwork orcOnBSC (ensureCorrectNetwork orcOnBSC 0 s0).idx
        (ensureCorrectNetwork orcOnBSC 0 s0).st).tr =
      [(.ethChainId, .ok (.str BSC_NETWORK.chainId))] :=
  C7_theorem orcOnBSC 0 s0 rfl (fun _ => rfl)

/-! ### Claim C5 — the accountsChanged handler -/

/-- Claim C5: the `accountsChanged` handler on the empty list clears the
session (address none, disconnected, balance "0") for every prior state,
issuing no provider call; on a non-empty list whose first entry differs from
the current address it adopts that entry, marks the session connected,
refreshes the balance from an `eth_getBalance` call (its first provider call),
and re-runs network reconciliation (its second provider call is the
`eth_chainId` read). -/
theorem C5_theorem (orc : Oracle) (s : AppState) (a : String) (rest : List String)
    (hp : s.provider = some ()) (hw : s.web3 = some ()) (ha : a ≠ "")
    (hdiff : some a ≠ s.account) :
    ((onAccountsChanged [] orc 0 s).st =
      { s with account := none, isConnected := false, balance := "0"
               status := "Wallet disconnected.", statusType := "info" } ∧
     (onAccountsChanged [] orc 0 s).tr = []) ∧
    ((onAccountsChanged (a :: rest) orc 0 s).st.account = some a ∧
     (onAccountsChanged (a :: rest) orc 0 s).st.isConnected = true ∧
     (onAccountsChanged (a :: rest) orc 0 s).st.balance =
       (match orc 0 with | .ok v => formatBalance v | .err _ => "0") ∧
     (onAccountsChanged (a :: rest) orc 0 s).tr.take 2 =
       [(.ethGetBalance a, orc 0), (.ethChainId, orc 1)]) := by
  constructor
  · exact ⟨rfl, rfl⟩
  · have hrun := getBalance_run a orc 0 { s with account := some a, isConnected := true } hw ha
    have e : onAccountsChanged (a :: rest) orc 0 s =
        ⟨(), (ensureCorrectNetwork orc
               (getBalance (some a) orc 0 { s with account := some a, isConnected := true }).idx
               (getBalance (some a) orc 0 { s with account := some a, isConnected := true }).st).st,
         (ensureCorrectNetwork orc
               (getBalance (some a) orc 0 { s with account := some a, isConnected := true }).idx
               (getBalance (some a) orc 0 { s with account := some a, isConnected := true }).st).idx,
         (getBalance (some a) orc 0 { s with account := some a, isConnected := true }).tr ++
           (ensureCorrectNetwork orc
               (getBalance (some a) orc 0 { s with account := some a, isConnected := true }).idx
               (getBalance (some a) orc 0 { s with account := some a, isConnected := true }).st).tr⟩ := by
      simp only [onAccountsChanged]
      rw [if_pos hdiff]
    have hidx : (getBalance (some a) orc 0
        { s with account := some a, isConnected := true }).idx = 1 := by rw [hrun]
    have hst : (getBalance (some a) orc 0
        { s with account := some a, isConnected := true }).st =
        { s with account := some a, isConnected := true
                 balance := match orc 0 with | .ok v => formatBalance v | .err _ => "0" } := by
      rw [hrun]
    have htr : (getBalance (some a) orc 0
        { s with account := some a, isConnected := true }).tr =
        [(.ethGetBalance a, orc 0)] := by rw [hrun]
    obtain ⟨t, ht⟩ := ensureCorrectNetwork_tr_head orc 1
      { s with account := some a, isConnected := true
               balance := match orc 0 with | .ok v => formatBalance v | .err _ => "0" } hp
    rw [e, hidx, hst, htr]
    refine ⟨by simp, by simp, by simp, ?_⟩
    rw [ht]
    rfl

/-- Witness for C5_theorem on a concrete prior session and oracle. -/
theorem C5_witness :
    ((onAccountsChanged [] orcBalanceThenChain 0 sConn).st =
      { sConn with account := none, isConnected := false, balance := "0"
                   status := "Wallet disconnected.", statusType := "info" } ∧
     (onAccountsChanged [] orcBalanceThenChain 0 sConn).tr = []) ∧
    ((onAccountsChanged ["0xb0b0000000000000"] orcBalanceThenChain 0 sConn).st.account =
        some "0xb0b0000000000000" ∧
     (onAccountsChanged ["0xb0b0000000000000"] orcBalanceThenChain 0 sConn).st.isConnected
        = true ∧
     (onAccountsChanged ["0xb0b0000000000000"] orcBalanceThenChain 0 sConn).st.balance =
       (match orcBalanceThenChain 0 with | .ok v => formatBalance v | .err _ => "0") ∧
     (onAccountsChanged ["0xb0b0000000000000"] orcBalanceThenChain 0 sConn).tr.take 2 =
       [(.ethGetBalance "0xb0b0000000000000", orcBalanceThenChain 0),
        (.ethChainId, orcBalanceThenChain 1)]) :=
  C5_theorem orcBalanceThenChain sConn "0xb0b0000000000000" [] rfl rfl
    (by decide) (by decide)

/-! ### Claim C8 — connectWallet -/

/-- Claim C8 counterexample: when the provider resolves the account request
with an empty list, `connectWallet` reports nothing — the status is left
exactly as it was, so no `UserRejected` status is reported (the claim says one
is).  The session does stay disconnected. -/
theorem C8_counterexample :
    (connectWallet orcEmptyAccounts 0 { s0 with status := "previous status" }).st.status =
      "previous status" ∧
    (connectWallet orcEmptyAccounts 0 { s0 with status := "previous status" }).st.status ≠
      (getErrorMessage ⟨some 4001, none⟩).userFriendly ∧
    (connectWallet orcEmptyAccounts 0 { s0 with status := "previous status" }).st.isConnected
      = false := by
  decide

/-- Claim C8 (amended): from a disconnected session with a provider,
`connectWallet` on a successful non-empty account request stores the first
returned address, marks the session connected, immediately reconciles the
network (the `eth_chainId` read is its second provider call) and ends with a
balance refresh (its last provider call is the `eth_getBalance`); on a user
rejection (code 4001) it stays disconnected and reports the user-cancelled
status; on an empty account list it stays disconnected but reports nothing —
the status field is left unchanged (only `isLoading` is reset). -/
theorem C8_theorem (orc : Oracle) (s : AppState) (a : String) (rest : List String)
    (m : Option String)
    (hp : s.provider = some ()) (hw : s.web3 = some ())
    (hacc : s.account = none) (hcon : s.isConnected = false) (ha : a ≠ "") :
    (orc 0 = .ok (.addrList (a :: rest)) →
      (connectWallet orc 0 s).st.account = some a ∧
      (connectWallet orc 0 s).st.isConnected = true ∧
      (connectWallet orc 0 s).st.status = "Wallet connected successfully!" ∧
      (connectWallet orc 0 s).tr.take 2 =
        [(.ethRequestAccounts, .ok (.addrList (a :: rest))), (.ethChainId, orc 1)] ∧
      ∃ r, (connectWallet orc 0 s).tr.getLast? = some (.ethGetBalance a, r)) ∧
    (orc 0 = .err ⟨some 4001, m⟩ →
      (connectWallet orc 0 s).st =
        { s with status := "Request was cancelled. You can try again anytime."
                 statusType := "error", isLoading := false } ∧
      (connectWallet orc 0 s).st.isConnected = false ∧
      (connectWallet orc 0 s).st.account = none) ∧
    (orc 0 = .ok (.addrList []) →
      (connectWallet orc 0 s).st = { s with isLoading := false } ∧
      (connectWallet orc 0 s).st.status = s.status ∧
      (connectWallet orc 0 s).st.isConnected = false) := by
  refine ⟨?_, ?_, ?_⟩
  · intro h0
    have e : connectWallet orc 0 s =
        ⟨(), { (getBalance (some a) orc
                 (ensureCorrectNetwork orc 1
                   { s with isLoading := true, account := some a, isConnected := true }).idx
                 { (ensureCorrectNetwork orc 1
                     { s with isLoading := true, account := some a, isConnected := true }).st with
                   status := "Wallet connected successfully!", statusType := "success" }).st with
               isLoading := false },
         (getBalance (some a) orc
                 (ensureCorrectNetwork orc 1
                   { s with isLoading := true, account := some a, isConnected := true }).idx
                 { (ensureCorrectNetwork orc 1
                     { s with isLoading := true, account := some a, isConnected := true }).st with
                   status := "Wallet connected successfully!", statusType := "success" }).idx,
         (.ethRequestAccounts, .ok (.addrList (a :: rest))) ::
           (ensureCorrectNetwork orc 1
             { s with isLoading := true, account := some a, isConnected := true }).tr ++
           (getBalance (some a) orc
                 (ensureCorrectNetwork orc 1
                   { s with isLoading := true, account := some a, isConnected := true }).idx
                 { (ensureCorrectNetwork orc 1
                     { s with isLoading := true, account := some a, isConnected := true }).st with
                   status := "Wallet connected successfully!", statusType := "success" }).tr⟩ := by
      unfold connectWallet
      rw [hp, h0]
      rfl
    have hw2 : ({ (ensureCorrectNetwork orc 1
          { s with isLoading := true, account := some a, isConnected := true }).st with
        status := "Wallet connected successfully!", statusType := "success" } : AppState).web3 =
        some () := by simp [hw]
    have hrun := getBalance_run a orc
      (ensureCorrectNetwork orc 1
        { s with isLoading := true, account := some a, isConnected := true }).idx
      { (ensureCorrectNetwork orc 1
          { s with isLoading := true, account := some a, isConnected := true }).st with
        status := "Wallet connected successfully!", statusType := "success" }
      hw2 ha
    have htr2 : (getBalance (some a) orc
        (ensureCorrectNetwork orc 1
          { s with isLoading := true, account := some a, isConnected := true }).idx
        { (ensureCorrectNetwork orc 1
            { s with isLoading := true, account := some a, isConnected := true }).st with
          status := "Wallet connected successfully!", statusType := "success" }).tr =
        [(.ethGetBalance a,
          orc (ensureCorrectNetwork orc 1
            { s with isLoading := true, account := some a, isConnected := true }).idx)] := by
      rw [hrun]
    obtain ⟨t, ht⟩ := ensureCorrectNetwork_tr_head orc 1
      { s with isLoading := true, account := some a, isConnected := true } hp
    rw [e]
    refine ⟨by simp, by simp, by simp, ?_, ?_⟩
    · rw [ht]
      rfl
    · refine ⟨orc (ensureCorrectNetwork orc 1
        { s with isLoading := true, account := some a, isConnected := true }).idx, ?_⟩
      rw [htr2, callLogLast]
  · intro h0
    have e : connectWallet orc 0 s =
        ⟨(), { s with status := (getErrorMessage ⟨some 4001, m⟩).userFriendly
                      statusType := "error", isLoading := false },
         1, [(.ethRequestAccounts, .err ⟨some 4001, m⟩)]⟩ := by
      unfold connectWallet
      rw [hp, h0]
      rfl
    rw [e]
    exact ⟨by simp [getErrorMessage], by simp [hcon], by simp [hacc]⟩
  · intro h0
    have e : connectWallet orc 0 s =
        ⟨(), { s with isLoading := false },
         1, [(.ethRequestAccounts, .ok (.addrList []))]⟩ := by
      unfold connectWallet
      rw [hp, h0]
      rfl
    rw [e]
    exact ⟨rfl, rfl, by simp [hcon]⟩

/-- Witness for C8_theorem: the three branches at concrete oracles. -/
theorem C8_witness :
    ((connectWallet orcHappyConnect 0 s0).st.account = some "0xa11ce00000000000" ∧
     (connectWallet orcHappyConnect 0 s0).st.isConnected = true) ∧
    ((connectWallet orcRejectConnect 0 s0).st.status =
        "Request was cancelled. You can try again anytime." ∧
     (connectWallet orcRejectConnect 0 s0).st.isConnected = false) ∧
    ((connectWallet orcEmptyAccounts 0 s0).st.status = s0.status ∧
     (connectWallet orcEmptyAccounts 0 s0).st.isConnected = false) := by
  have h1 := C8_theorem orcHappyConnect s0 "0xa11ce00000000000" [] none
    rfl rfl rfl rfl (by decide)
  have h2 := C8_theorem orcRejectConnect s0 "0xa11ce00000000000" []
    (some "User rejected the request.") rfl rfl rfl rfl (by decide)
  have h3 := C8_theorem orcEmptyAccounts s0 "0xa11ce00000000000" [] none
    rfl rfl rfl rfl (by decide)
  have e1 := h1.1 rfl
  have e2 := h2.2.1 rfl
  have e3 := h3.2.2 rfl
  exact ⟨⟨e1.1, e1.2.1⟩, ⟨by rw [e2.1], e2.2.1⟩, ⟨e3.2.1, e3.2.2⟩⟩

/-! ### Claim C1 — switchToBSC -/

/-- Claim C1 counterexample: the claim's "if and only if that request fails
with error code 4902" is false in the only-if direction — here the switch
request resolves without error, the `eth_chainId` re-read itself rejects with
code 4902, and the handler still issues the `wallet_addEthereumChain` request
(the source's catch inspects whatever error the whole try block threw). -/
theorem C1_counterexample :
    (orcSwitchOkReadErr 0).isOk = true ∧
    hasAddBSC (switchToBSC orcSwitchOkReadErr 0 s0).tr = true ∧
    (switchToBSC orcSwitchOkReadErr 0 s0).ret = true := by
  decide

/-- Claim C1 (amended): with the provider present, `switchToBSC` first issues
the `wallet_switchEthereumChain "0x38"` request; the
`wallet_addEthereumChain BSC_NETWORK` request is issued exactly when the error
caught from the switch-then-verify block carries code 4902 — that is, when
either the switch request failed with 4902, or the switch resolved and the
`eth_chainId` re-read failed with 4902 (the synthesized verification error
carries no code and never triggers the add); and the handler returns `true`
only when the chain id it observed last is a re-read returning the target
`0x38` — a switch or add call that resolves but leaves the observed chain id
different from `0x38` makes it return `false`. -/
theorem C1_theorem (orc : Oracle) (n : Nat) (s : AppState) (hp : s.provider = some ()) :
    (∃ t, (switchToBSC orc n s).tr =
      (Request.walletSwitchEthereumChain BSC_NETWORK.chainId, orc n) :: t) ∧
    (hasAddBSC (switchToBSC orc n s).tr =
      ((orc n).fails4902 || ((orc n).isOk && (orc (n + 1)).fails4902))) ∧
    ((switchToBSC orc n s).ret = true →
      lastChainId none (switchToBSC orc n s).tr = some (JsValue.str BSC_NETWORK.chainId)) :=
  ⟨switchToBSC_tr_head orc n s hp, switchToBSC_hasAdd orc n s hp,
   fun h => switchToBSC_true_lastChainId orc n s none h⟩

/-- Witness for C1_theorem on the add-chain path. -/
theorem C1_witness :
    (∃ t, (switchToBSC orcSwitch4902 0 s0).tr =
      (Request.walletSwitchEthereumChain BSC_NETWORK.chainId, orcSwitch4902 0) :: t) ∧
    (hasAddBSC (switchToBSC orcSwitch4902 0 s0).tr =
      ((orcSwitch4902 0).fails4902 ||
        ((orcSwitch4902 0).isOk && (orcSwitch4902 1).fails4902))) ∧
    ((switchToBSC orcSwitch4902 0 s0).ret = true →
      lastChainId none (switchToBSC orcSwitch4902 0 s0).tr =
        some (JsValue.str BSC_NETWORK.chainId)) :=
  C1_theorem orcSwitch4902 0 s0 rfl

/-! ### Claim C2 — token registration fallback -/

/-- Claim C2 counterexample: the first `wallet_watchAsset` request rejects with
the user-cancelled code 4001, yet a degraded fallback watch request is issued
anyway — the source's catch does not special-case 4001.  (The run only then
reports the user-cancelled status, after the second request also rejects.) -/
theorem C2_counterexample :
    ((addTokenToMetaMask "https://example.org" orcUserCancelsWatch 0 sConn).tr.map Prod.fst) =
      [.ethChainId, .walletWatchAsset (fullWatchOptions "https://example.org"),
       .walletWatchAsset degradedWatchOptions] ∧
    (addTokenToMetaMask "https://example.org" orcUserCancelsWatch 0 sConn).st.status =
      "Request was cancelled. You can try again anytime." := by
  decide

/-- Claim C2 (amended): when the first `wallet_watchAsset` request of the
registration phase fails with ANY error — the user-cancelled code 4001
included — exactly one fallback `wallet_watchAsset` request is issued before a
terminal result, identical to the first except that the image field is
omitted; there is no early `Rejected` return that suppresses the fallback. -/
theorem C2_theorem (origin : String) (orc : Oracle) (n : Nat) (s : AppState) (e : ErrObj)
    (h : orc n = .err e) :
    (watchPhase origin orc n s).tr.map Prod.fst =
      [.walletWatchAsset (fullWatchOptions origin), .walletWatchAsset degradedWatchOptions] ∧
    degradedWatchOptions = { fullWatchOptions origin with image := none } := by
  unfold watchPhase
  rcases h2 : orc (n + 1) with v2 | e2
  · by_cases hv : v2.truthy <;>
      simp [h, h2, hv, degradedWatchOptions, fullWatchOptions]
  · simp [h, h2, degradedWatchOptions, fullWatchOptions]

/-- Witness for C2_theorem at the 4001 rejection. -/
theorem C2_witness :
    (watchPhase "https://example.org" orcUserCancelsWatch 1 sConn).tr.map Prod.fst =
      [.walletWatchAsset (fullWatchOptions "https://example.org"),
       .walletWatchAsset degradedWatchOptions] ∧
    degradedWatchOptions = { fullWatchOptions "https://example.org" with image := none } :=
  C2_theorem "https://example.org" orcUserCancelsWatch 1 sConn ⟨some 4001, none⟩ rfl

/-! ### Claim C4 — the retry coordinator -/

/-- Claim C4 counterexample: three consecutive failures do NOT yield the
"Failed after 3 attempts" status — that message lives only behind the entry
guard `retryCount >= maxRetries`, which a run started at 0 never reaches; the
terminal status is the classified error's user-facing message.  The attempt
counter does end at 0. -/
theorem C4_counterexample :
    (retryOperation opAlwaysFail "Connect Wallet" s0).status =
      "Something went wrong. Please try again or refresh the page." ∧
    (retryOperation opAlwaysFail "Connect Wallet" s0).status ≠ failedAfterMsg ∧
    (retryOperation opAlwaysFail "Connect Wallet" s0).retryCount = 0 := by
  decide

/-- Claim C4 (amended): started with the counter at 0 and `maxRetries = 3`,
three consecutive failures end the run with the classified error's
user-friendly message (statusType "error") — not the "failed after 3 attempts"
text — and the counter reset to 0; a failure on attempt 1 followed by success
on attempt 2 ends the run with the counter reset to 0 and no error status (the
state keeps the attempt-2 "Retrying" info status; the wrapped operation's own
effects are out of scope). -/
theorem C4_theorem (op : Nat → Option ErrObj) (nm : String) (s : AppState)
    (e1 e2 e3 : ErrObj) (h0 : s.retryCount = 0) :
    ((op 0 = some e1 ∧ op 1 = some e2 ∧ op 2 = some e3) →
      retryOperation op nm s =
        { s with retryCount := 0, status := (getErrorMessage e3).userFriendly
                 statusType := "error" }) ∧
    ((op 0 = some e1 ∧ op 1 = none) →
      retryOperation op nm s =
        { s with retryCount := 0, status := retryingMsg nm 2, statusType := "info" }) := by
  constructor
  · rintro ⟨h1, h2, h3⟩
    simp [retryOperation, retryGo, h0, h1, h2, h3, maxRetries]
  · rintro ⟨h1, h2⟩
    simp [retryOperation, retryGo, h0, h1, h2, maxRetries]

/-- Witness for C4_theorem: both runs at concrete operations. -/
theorem C4_witness :
    retryOperation opAlwaysFail "Add Token to MetaMask" s0 =
      { s0 with retryCount := 0
                status := (getErrorMessage ⟨none, none⟩).userFriendly
                statusType := "error" } ∧
    retryOperation opFailThenOk "Add Token to MetaMask" s0 =
      { s0 with retryCount := 0
                status := retryingMsg "Add Token to MetaMask" 2
                statusType := "info" } := by
  have h := C4_theorem opAlwaysFail "Add Token to MetaMask" s0
    ⟨none, none⟩ ⟨none, none⟩ ⟨none, none⟩ rfl
  have h2 := C4_theorem opFailThenOk "Add Token to MetaMask" s0
    ⟨none, none⟩ ⟨none, none⟩ ⟨none, none⟩ rfl
  exact ⟨h.1 ⟨rfl, rfl, rfl⟩, h2.2 ⟨rfl, rfl⟩⟩

/-! ### Claim C6 — no watch request off the target chain -/

/-- `switchToBSC` followed (on success) by the registration phase keeps every
watch request behind a last-observed chain id equal to the target. -/
theorem switchThenWatch_safe (origin : String) (orc : Oracle) (k m : Nat)
    (s1 s2 : AppState) (init : Option JsValue)
    (h : (switchToBSC orc k s1).ret = true) :
    watchSafe init ((switchToBSC orc k s1).tr ++ (watchPhase origin orc m s2).tr) = true := by
  rw [watchSafe_append,
      watchSafe_of_noWatch _ (switchToBSC_noWatch orc k s1) init,
      switchToBSC_true_lastChainId orc k s1 init h,
      watchPhase_watchSafe]
  rfl

/-- Claim C6: in every execution of `addTokenToMetaMask`, a
`wallet_watchAsset` request is only ever issued while the most recently
observed chain id equals the target `0x38`: the handler first reads
`eth_chainId`, and on an off-target chain it either completes a verified
switch to `0x38` before submitting the watch request or aborts without
submitting it. -/
theorem C6_theorem (origin : String) (orc : Oracle) (n : Nat) (s : AppState) :
    watchSafe none (addTokenToMetaMask origin orc n s).tr = true := by
  unfold addTokenToMetaMask
  by_cases hg : s.provider = none ∨ s.isConnected = false
  · simp [hg, watchSafe]
  · rcases h : orc n with v | e
    · by_cases hv : v = JsValue.str BSC_NETWORK.chainId
      · subst hv
        simp only [hg, if_false, h]
        simpa [watchSafe] using watchPhase_watchSafe origin orc (n + 1) _
      · simp only [hg, if_false, h, hv]
        split
        · rename_i hret
          simpa [watchSafe] using switchThenWatch_safe origin orc (n + 1) _ _ _ (some v) hret
        · rename_i hret
          simpa [watchSafe] using
            watchSafe_of_noWatch _ (switchToBSC_noWatch orc (n + 1) _) (some v)
    · simp [hg, h, watchSafe]

end CTI
